import Mathlib

/-!
Shallow embedding of `src/script.js` (Afforestation impact calculator).

JavaScript numbers are modelled by real numbers `ℝ` (the claims are about the
mathematical formulas the code computes; IEEE-754 rounding is abstracted away).
`Math.exp` is `Real.exp`, `Math.round` is `fun x => ⌊x + 1/2⌋` (JS rounds
halves toward +∞), `Math.min`/`Math.max` are `min`/`max`.
-/

namespace Afforestation

/-- Species growth parameters, one record of the `treeSpecies` table
(src/script.js lines 2-35). -/
structure SpeciesProfile where
  name : String
  maxAge : ℕ
  maxBiomass : ℝ
  growthRate : ℝ
  woodDensity : ℝ
  carbonFraction : ℝ

/-- `treeSpecies.teak` (lines 3-10). -/
def teakProfile : SpeciesProfile :=
  { name := "Teak", maxAge := 50, maxBiomass := 800, growthRate := 0.25,
    woodDensity := 0.65, carbonFraction := 0.47 }

/-- `treeSpecies.pine` (lines 11-18). -/
def pineProfile : SpeciesProfile :=
  { name := "Pine", maxAge := 40, maxBiomass := 600, growthRate := 0.30,
    woodDensity := 0.45, carbonFraction := 0.50 }

/-- `treeSpecies.oak` (lines 19-26). -/
def oakProfile : SpeciesProfile :=
  { name := "Oak", maxAge := 60, maxBiomass := 900, growthRate := 0.20,
    woodDensity := 0.72, carbonFraction := 0.48 }

/-- `treeSpecies.eucalyptus` (lines 27-34). -/
def eucalyptusProfile : SpeciesProfile :=
  { name := "Eucalyptus", maxAge := 30, maxBiomass := 500, growthRate := 0.35,
    woodDensity := 0.55, carbonFraction := 0.49 }

/-- The keys of the `treeSpecies` table. -/
inductive Species where
  | teak
  | pine
  | oak
  | eucalyptus
deriving DecidableEq

/-- The `treeSpecies` table, keyed by `Species`. -/
def treeSpecies : Species → SpeciesProfile
  | .teak => teakProfile
  | .pine => pineProfile
  | .oak => oakProfile
  | .eucalyptus => eucalyptusProfile

/-- `treeSpecies[species]` for an arbitrary string key: `some` exactly on the
four supported identifiers, `none` (JS `undefined`) otherwise. -/
def findSpecies : String → Option SpeciesProfile
  | "teak" => some teakProfile
  | "pine" => some pineProfile
  | "oak" => some oakProfile
  | "eucalyptus" => some eucalyptusProfile
  | _ => none

/-- `const CO2_TO_CARBON_RATIO = 3.67` (line 38). -/
def CO2_TO_CARBON_RATIO : ℝ := 3.67

/-- `calculateBiomass(age, speciesData)` (lines 121-146): logistic growth
with carrying capacity `maxBiomass`, initial biomass `B0 = 0.1`, clamped
above by `K`, scaled by `woodDensity`, floored at 0. -/
noncomputable def calculateBiomass (age : ℕ) (speciesData : SpeciesProfile) : ℝ :=
  let K := speciesData.maxBiomass
  let r := speciesData.growthRate
  let B0 : ℝ := 0.1
  let A := (K - B0) / B0
  let biomass := K / (1 + A * Real.exp (-r * age))
  let biomass := min biomass K
  let biomass := biomass * speciesData.woodDensity
  max biomass 0

/-- JS `Math.round` (rounds halves toward positive infinity). -/
noncomputable def jround (x : ℝ) : ℤ := ⌊x + 1 / 2⌋

/-- `Math.round(x * 10) / 10`: rounding to one decimal place, as used for
the per-record fields (lines 105-107). -/
noncomputable def round1 (x : ℝ) : ℝ := (jround (x * 10) : ℝ) / 10

/-- One element of the `results` array (lines 103-108). -/
structure YearRecord where
  year : ℕ
  biomass_per_tree : ℝ
  co2_per_tree : ℝ
  total_co2 : ℝ

/-- The value returned by `calculateCarbonSequestration` (lines 111-118). -/
structure CalcResult where
  success : Bool
  species : String
  num_trees : ℕ
  years : ℕ
  final_co2 : ℤ
  results : List YearRecord

/-- The loop of `calculateCarbonSequestration` (lines 88-109): after `y`
iterations, returns the running total `totalCO2` (never rounded) and the
`results` array pushed so far.  Each iteration computes
`biomass = calculateBiomass(year, speciesData)`,
`carbonContent = biomass * carbonFraction`,
`co2PerTree = carbonContent * CO2_TO_CARBON_RATIO`,
`totalCo2ForYear = co2PerTree * numTrees / 1000`, adds it to the running
total and pushes a record with the three display fields rounded to one
decimal. -/
noncomputable def simulateYears (speciesData : SpeciesProfile) (numTrees : ℕ) :
    ℕ → ℝ × List YearRecord
  | 0 => (0, [])
  | y + 1 =>
    let prev := simulateYears speciesData numTrees y
    let biomass := calculateBiomass (y + 1) speciesData
    let carbonContent := biomass * speciesData.carbonFraction
    let co2PerTree := carbonContent * CO2_TO_CARBON_RATIO
    let totalCo2ForYear := co2PerTree * numTrees / 1000
    let totalCO2 := prev.1 + totalCo2ForYear
    (totalCO2,
      prev.2 ++ [{ year := y + 1,
                   biomass_per_tree := round1 biomass,
                   co2_per_tree := round1 co2PerTree,
                   total_co2 := round1 totalCO2 }])

/-- `calculateCarbonSequestration(species, numTrees, years)` (lines 83-119),
with the `treeSpecies[species]` lookup already resolved to a profile
(the lookup itself is modelled in `calculateImpact`). -/
noncomputable def calculateCarbonSequestration (speciesData : SpeciesProfile)
    (numTrees years : ℕ) : CalcResult :=
  let sim := simulateYears speciesData numTrees years
  { success := true,
    species := speciesData.name,
    num_trees := numTrees,
    years := years,
    final_co2 := jround sim.1,
    results := sim.2 }

/-- JS falsiness of a `parseInt` result: `NaN` (here `none`) and `0` are
falsy, every other number is truthy. -/
def jsFalsyNum (o : Option ℤ) : Prop := o = none ∨ o = some 0

instance (o : Option ℤ) : Decidable (jsFalsyNum o) := by
  unfold jsFalsyNum; infer_instance

/-- Outcome of a user request: either an error message shown by
`showError`, or the structured result. -/
inductive CalcOutcome where
  | error (msg : String)
  | ok (result : CalcResult)

/-- `calculateImpact()` (lines 42-81), with the DOM reads replaced by the
three inputs: the raw species string and the two `parseInt` results
(`none` models `NaN`).  `!species || !numTrees || !years` is the JS
falsiness check; the two range checks follow.  If the species string is
not a key of `treeSpecies`, `calculateCarbonSequestration` dereferences
`undefined` and throws, which the surrounding `try`/`catch` turns into the
generic failure message (lines 74-77); that is the `none` branch of the
lookup below. -/
noncomputable def calculateImpact (species : String)
    (numTrees years : Option ℤ) : CalcOutcome :=
  if species = "" ∨ jsFalsyNum numTrees ∨ jsFalsyNum years then
    .error "Please fill in all fields"
  else
    let n := numTrees.getD 0
    let y := years.getD 0
    if n < 1 ∨ 100000 < n then
      .error "Number of trees must be between 1 and 100,000"
    else if y < 1 ∨ 50 < y then
      .error "Project duration must be between 1 and 50 years"
    else
      match findSpecies species with
      | none => .error "Failed to calculate impact. Please try again."
      | some speciesData => .ok (calculateCarbonSequestration speciesData n.toNat y.toNat)

/-! ### Specification-side definitions (for refinement claims) -/

/-- The biomass formula as the spec words it (§4.1): `A = (maxBiomassKg - B0)/B0`
with `B0 = 0.1`, raw biomass `maxBiomassKg / (1 + A * exp(-growthRate * age))`,
clamped to at most `maxBiomassKg` before the `woodDensity` multiplication,
floored at 0 after it. -/
noncomputable def biomassAtAge_spec (age : ℕ) (profile : SpeciesProfile) : ℝ :=
  let A := (profile.maxBiomass - 0.1) / 0.1
  max (min (profile.maxBiomass / (1 + A * Real.exp (-profile.growthRate * age)))
        profile.maxBiomass * profile.woodDensity) 0

/-- `co2PerTree` of one loop iteration (lines 93-96):
`biomass * carbonFraction * CO2_TO_CARBON_RATIO`. -/
noncomputable def co2PerTreeAtAge (age : ℕ) (speciesData : SpeciesProfile) : ℝ :=
  calculateBiomass age speciesData * speciesData.carbonFraction * CO2_TO_CARBON_RATIO

/-- The record pushed by iteration `year` of the loop (lines 103-108). -/
noncomputable def yearRecordAt (speciesData : SpeciesProfile) (numTrees year : ℕ) :
    YearRecord :=
  { year := year,
    biomass_per_tree := round1 (calculateBiomass year speciesData),
    co2_per_tree := round1 (co2PerTreeAtAge year speciesData),
    total_co2 := round1 ((simulateYears speciesData numTrees year).1) }

/-- The exact (unrounded) running total after `y` years, written as a closed
sum rather than a loop. -/
noncomputable def exactCumulative (speciesData : SpeciesProfile) (numTrees y : ℕ) : ℝ :=
  ∑ j ∈ Finset.Icc 1 y, co2PerTreeAtAge j speciesData * numTrees / 1000

/-! ### Structural lemmas about the loop -/

lemma simulateYears_fst_succ (sd : SpeciesProfile) (n y : ℕ) :
    (simulateYears sd n (y + 1)).1
      = (simulateYears sd n y).1 + co2PerTreeAtAge (y + 1) sd * n / 1000 := rfl

lemma simulateYears_snd_succ (sd : SpeciesProfile) (n y : ℕ) :
    (simulateYears sd n (y + 1)).2
      = (simulateYears sd n y).2 ++ [yearRecordAt sd n (y + 1)] := rfl

lemma simulateYears_snd_eq (sd : SpeciesProfile) (n y : ℕ) :
    (simulateYears sd n y).2 = (List.range y).map (fun i => yearRecordAt sd n (i + 1)) := by
  induction y with
  | zero => rfl
  | succ y ih =>
    rw [simulateYears_snd_succ, ih, List.range_succ, List.map_append, List.map_singleton]

lemma simulateYears_fst_eq_exact (sd : SpeciesProfile) (n y : ℕ) :
    (simulateYears sd n y).1 = exactCumulative sd n y := by
  induction y with
  | zero => simp [simulateYears, exactCumulative]
  | succ y ih =>
    rw [simulateYears_fst_succ, ih, exactCumulative, exactCumulative,
      Finset.sum_Icc_succ_top (Nat.le_add_left 1 y)]

lemma results_eq (sd : SpeciesProfile) (n years : ℕ) :
    (calculateCarbonSequestration sd n years).results
      = (List.range years).map (fun i => yearRecordAt sd n (i + 1)) := by
  rw [calculateCarbonSequestration]
  exact simulateYears_snd_eq sd n years

lemma results_getElem? (sd : SpeciesProfile) (n years i : ℕ) (h : i < years) :
    (calculateCarbonSequestration sd n years).results[i]? = some (yearRecordAt sd n (i + 1)) := by
  rw [results_eq]
  simp [List.getElem?_map, List.getElem?_range, h]

/-! ### Arithmetic facts about the model -/

lemma calculateBiomass_nonneg (age : ℕ) (sd : SpeciesProfile) :
    0 ≤ calculateBiomass age sd :=
  le_max_right _ 0

/-- The per-tree biomass never exceeds `maxBiomass * woodDensity` (the clamp
to `maxBiomass` precedes the density multiplication). -/
lemma calculateBiomass_le (age : ℕ) (sd : SpeciesProfile)
    (hK : 0 ≤ sd.maxBiomass) (hd : 0 ≤ sd.woodDensity) :
    calculateBiomass age sd ≤ sd.maxBiomass * sd.woodDensity := by
  unfold calculateBiomass
  refine max_le (mul_le_mul_of_nonneg_right (min_le_right _ _) hd) (mul_nonneg hK hd)

/-- The logistic biomass is monotone in age: a larger age gives a smaller
exponential, hence a smaller denominator, hence a larger raw biomass, and
every later stage (clamp, density, floor) preserves the order. -/
lemma calculateBiomass_mono (sd : SpeciesProfile)
    (hK : 0.1 ≤ sd.maxBiomass) (hr : 0 ≤ sd.growthRate) (hd : 0 ≤ sd.woodDensity)
    {a b : ℕ} (hab : a ≤ b) :
    calculateBiomass a sd ≤ calculateBiomass b sd := by
  unfold calculateBiomass
  have hA : 0 ≤ (sd.maxBiomass - 0.1) / 0.1 :=
    div_nonneg (by linarith) (by norm_num)
  have hcast : (a : ℝ) ≤ (b : ℝ) := Nat.cast_le.mpr hab
  have hexp : Real.exp (-sd.growthRate * b) ≤ Real.exp (-sd.growthRate * a) := by
    apply Real.exp_le_exp.mpr
    nlinarith
  have hden : (0 : ℝ) < 1 + (sd.maxBiomass - 0.1) / 0.1 * Real.exp (-sd.growthRate * b) := by
    have := (Real.exp_pos (-sd.growthRate * b)).le
    nlinarith
  have hdenle : 1 + (sd.maxBiomass - 0.1) / 0.1 * Real.exp (-sd.growthRate * b)
      ≤ 1 + (sd.maxBiomass - 0.1) / 0.1 * Real.exp (-sd.growthRate * a) := by
    nlinarith
  have hraw : sd.maxBiomass / (1 + (sd.maxBiomass - 0.1) / 0.1 * Real.exp (-sd.growthRate * a))
      ≤ sd.maxBiomass / (1 + (sd.maxBiomass - 0.1) / 0.1 * Real.exp (-sd.growthRate * b)) := by
    gcongr
  exact max_le_max
    (mul_le_mul_of_nonneg_right (min_le_min hraw (le_refl sd.maxBiomass)) hd)
    (le_refl 0)

/-- Table-wide parameter facts: every profile in `treeSpecies` has
`maxBiomass ≥ 0.1` and nonnegative `growthRate`, `woodDensity` and
`carbonFraction`. -/
lemma species_facts (s : Species) :
    0.1 ≤ (treeSpecies s).maxBiomass ∧ 0 ≤ (treeSpecies s).growthRate ∧
    0 ≤ (treeSpecies s).woodDensity ∧ 0 ≤ (treeSpecies s).carbonFraction := by
  cases s <;>
    norm_num [treeSpecies, teakProfile, pineProfile, oakProfile, eucalyptusProfile]

/-- For every table species, `10 * (maxBiomass * woodDensity)` is an
integer, so the one-decimal rounding cannot push a value past that bound. -/
lemma species_bound_int (s : Species) :
    ∃ m : ℤ, (m : ℝ) = (treeSpecies s).maxBiomass * (treeSpecies s).woodDensity * 10 := by
  cases s
  · exact ⟨5200, by norm_num [treeSpecies, teakProfile]⟩
  · exact ⟨2700, by norm_num [treeSpecies, pineProfile]⟩
  · exact ⟨6480, by norm_num [treeSpecies, oakProfile]⟩
  · exact ⟨2750, by norm_num [treeSpecies, eucalyptusProfile]⟩

lemma jround_mono {x y : ℝ} (h : x ≤ y) : jround x ≤ jround y :=
  Int.floor_le_floor (by linarith)

lemma round1_mono {x y : ℝ} (h : x ≤ y) : round1 x ≤ round1 y := by
  unfold round1
  have := jround_mono (mul_le_mul_of_nonneg_right h (by norm_num : (0:ℝ) ≤ 10))
  gcongr

lemma round1_nonneg {x : ℝ} (h : 0 ≤ x) : 0 ≤ round1 x := by
  unfold round1
  have h0 : (0 : ℤ) ≤ jround (x * 10) := by
    unfold jround
    exact Int.le_floor.mpr (by push_cast; nlinarith)
  positivity

/-- If `c * 10` is an integer, then rounding to one decimal any `x ≤ c`
stays at most `c`. -/
lemma round1_le {x c : ℝ} (m : ℤ) (hm : (m : ℝ) = c * 10) (h : x ≤ c) :
    round1 x ≤ c := by
  unfold round1
  have h2 : jround ((m : ℝ)) = m := by
    unfold jround
    rw [Int.floor_int_add]
    norm_num
  have h1 : jround (x * 10) ≤ m :=
    (jround_mono (by nlinarith)).trans_eq h2
  rw [div_le_iff₀ (by norm_num : (0:ℝ) < 10), ← hm]
  exact_mod_cast h1

/-- Each loop iteration adds a nonnegative amount to the running total. -/
lemma simulateYears_fst_mono (s : Species) (n : ℕ) {y z : ℕ} (h : y ≤ z) :
    (simulateYears (treeSpecies s) n y).1 ≤ (simulateYears (treeSpecies s) n z).1 := by
  induction z with
  | zero => simp_all
  | succ z ih =>
    rcases Nat.lt_or_ge y (z + 1) with hy | hy
    · have step : (simulateYears (treeSpecies s) n z).1
          ≤ (simulateYears (treeSpecies s) n (z + 1)).1 := by
        rw [simulateYears_fst_succ]
        have hb := calculateBiomass_nonneg (z + 1) (treeSpecies s)
        have hcf := (species_facts s).2.2.2
        have : 0 ≤ co2PerTreeAtAge (z + 1) (treeSpecies s) * n / 1000 := by
          unfold co2PerTreeAtAge CO2_TO_CARBON_RATIO
          positivity
        linarith
      exact le_trans (ih (Nat.lt_succ_iff.mp hy)) step
    · have : y = z + 1 := le_antisymm h hy
      simp [this]

/-! ### Claim theorems -/

/-- **C1.** For every species profile in the table and every age ≥ 1,
`calculateBiomass` equals
`min(maxBiomassKg / (1 + A * exp(-growthRate * age)), maxBiomassKg) * woodDensity`
floored at 0, with `A = (maxBiomassKg - 0.1) / 0.1`: the clamp to
`maxBiomassKg` precedes the `woodDensity` multiplication and the
non-negativity floor follows it. -/
theorem claim_C1 (s : Species) (age : ℕ) (h : 1 ≤ age) :
    calculateBiomass age (treeSpecies s) = biomassAtAge_spec age (treeSpecies s) := by
  rfl

/-- Witness for C1: the hypothesis holds at age 1 and the theorem applies. -/
theorem claim_C1_witness :
    1 ≤ 1 ∧ calculateBiomass 1 (treeSpecies Species.pine)
      = biomassAtAge_spec 1 (treeSpecies Species.pine) :=
  ⟨le_refl 1, claim_C1 Species.pine 1 (le_refl 1)⟩

/-- **C3.** For every valid request, the `results` sequence has exactly
`years` entries and its `year` fields are exactly `1, 2, ..., years` in
order. -/
theorem claim_C3 (s : Species) (n years : ℕ)
    (hn1 : 1 ≤ n) (hn2 : n ≤ 100000) (hy1 : 1 ≤ years) (hy2 : years ≤ 50) :
    (calculateCarbonSequestration (treeSpecies s) n years).results.length = years ∧
    (calculateCarbonSequestration (treeSpecies s) n years).results.map YearRecord.year
      = (List.range years).map (· + 1) := by
  rw [results_eq]
  constructor
  · simp
  · rw [List.map_map]
    rfl

/-- Witness for C3 at (pine, 1000 trees, 3 years). -/
theorem claim_C3_witness :
    (1 ≤ 1000 ∧ 1000 ≤ 100000 ∧ 1 ≤ 3 ∧ 3 ≤ 50) ∧
    ((calculateCarbonSequestration (treeSpecies Species.pine) 1000 3).results.length = 3 ∧
     (calculateCarbonSequestration (treeSpecies Species.pine) 1000 3).results.map
        YearRecord.year = (List.range 3).map (· + 1)) :=
  ⟨by norm_num,
   claim_C3 Species.pine 1000 3 (by norm_num) (by norm_num) (by norm_num) (by norm_num)⟩

/-- **C2.** For every valid request and every year `y` in `1..years`, the
per-year aggregation computes `co2PerTree = biomassAtAge(y) * carbonFraction
* 3.67` with the conversion factor a single fixed constant, adds
`(co2PerTree * treeCount) / 1000` to the running cumulative total, and the
`y`-th emitted record is exactly the record built from those values. -/
theorem claim_C2 (s : Species) (n years y : ℕ)
    (hn1 : 1 ≤ n) (hn2 : n ≤ 100000) (hy1 : 1 ≤ years) (hy2 : years ≤ 50)
    (h1 : 1 ≤ y) (h2 : y ≤ years) :
    co2PerTreeAtAge y (treeSpecies s)
      = calculateBiomass y (treeSpecies s) * (treeSpecies s).carbonFraction
          * CO2_TO_CARBON_RATIO ∧
    CO2_TO_CARBON_RATIO = 3.67 ∧
    (simulateYears (treeSpecies s) n y).1
      = (simulateYears (treeSpecies s) n (y - 1)).1
          + co2PerTreeAtAge y (treeSpecies s) * n / 1000 ∧
    (calculateCarbonSequestration (treeSpecies s) n years).results[y - 1]?
      = some (yearRecordAt (treeSpecies s) n y) := by
  obtain ⟨z, rfl⟩ : ∃ z, y = z + 1 := ⟨y - 1, (Nat.succ_pred_eq_of_pos h1).symm⟩
  refine ⟨rfl, rfl, ?_, ?_⟩
  · simpa using simulateYears_fst_succ (treeSpecies s) n z
  · simpa using results_getElem? (treeSpecies s) n years z (by omega)

/-- Witness for C2 at (pine, 1000 trees, 3 years, year 2). -/
theorem claim_C2_witness :
    (1 ≤ 1000 ∧ 1000 ≤ 100000 ∧ 1 ≤ 3 ∧ 3 ≤ 50 ∧ 1 ≤ 2 ∧ 2 ≤ 3) ∧
    (co2PerTreeAtAge 2 (treeSpecies Species.pine)
      = calculateBiomass 2 (treeSpecies Species.pine)
          * (treeSpecies Species.pine).carbonFraction * CO2_TO_CARBON_RATIO ∧
     CO2_TO_CARBON_RATIO = 3.67 ∧
     (simulateYears (treeSpecies Species.pine) 1000 2).1
      = (simulateYears (treeSpecies Species.pine) 1000 (2 - 1)).1
          + co2PerTreeAtAge 2 (treeSpecies Species.pine) * 1000 / 1000 ∧
     (calculateCarbonSequestration (treeSpecies Species.pine) 1000 3).results[2 - 1]?
      = some (yearRecordAt (treeSpecies Species.pine) 1000 2)) :=
  ⟨by norm_num,
   claim_C2 Species.pine 1000 3 2 (by norm_num) (by norm_num) (by norm_num)
     (by norm_num) (by norm_num) (by norm_num)⟩

/-- **C10.** For a fixed species and duration, two valid requests that differ
only in tree count yield results agreeing on every record's `year`,
`biomass_per_tree` and `co2_per_tree` (the per-tree figures are independent
of tree count), as well as on the echoed species and years; `num_trees`
echoes the respective input. -/
theorem claim_C10 (s : Species) (years m n : ℕ)
    (hm1 : 1 ≤ m) (hm2 : m ≤ 100000) (hn1 : 1 ≤ n) (hn2 : n ≤ 100000)
    (hy1 : 1 ≤ years) (hy2 : years ≤ 50) :
    (calculateCarbonSequestration (treeSpecies s) m years).results.map YearRecord.year
      = (calculateCarbonSequestration (treeSpecies s) n years).results.map
          YearRecord.year ∧
    (calculateCarbonSequestration (treeSpecies s) m years).results.map
        YearRecord.biomass_per_tree
      = (calculateCarbonSequestration (treeSpecies s) n years).results.map
          YearRecord.biomass_per_tree ∧
    (calculateCarbonSequestration (treeSpecies s) m years).results.map
        YearRecord.co2_per_tree
      = (calculateCarbonSequestration (treeSpecies s) n years).results.map
          YearRecord.co2_per_tree ∧
    (calculateCarbonSequestration (treeSpecies s) m years).species
      = (calculateCarbonSequestration (treeSpecies s) n years).species ∧
    (calculateCarbonSequestration (treeSpecies s) m years).years
      = (calculateCarbonSequestration (treeSpecies s) n years).years ∧
    (calculateCarbonSequestration (treeSpecies s) m years).num_trees = m ∧
    (calculateCarbonSequestration (treeSpecies s) n years).num_trees = n := by
  refine ⟨?_, ?_, ?_, rfl, rfl, rfl, rfl⟩ <;>
    simp [results_eq, List.map_map, Function.comp, yearRecordAt]

/-- Witness for C10 at (pine, 3 years, 1 tree vs 100000 trees). -/
theorem claim_C10_witness :
    (1 ≤ 1 ∧ 1 ≤ 100000 ∧ 1 ≤ 100000 ∧ 100000 ≤ 100000 ∧ 1 ≤ 3 ∧ 3 ≤ 50) ∧
    (calculateCarbonSequestration (treeSpecies Species.pine) 1 3).results.map
        YearRecord.biomass_per_tree
      = (calculateCarbonSequestration (treeSpecies Species.pine) 100000 3).results.map
          YearRecord.biomass_per_tree :=
  ⟨by norm_num,
   (claim_C10 Species.pine 3 1 100000 (by norm_num) (by norm_num) (by norm_num)
     (by norm_num) (by norm_num) (by norm_num)).2.1⟩

/-- **C4.** For every valid request, the `total_co2` values of consecutive
records in the result form a non-decreasing sequence. -/
theorem claim_C4 (s : Species) (n years : ℕ)
    (hn1 : 1 ≤ n) (hn2 : n ≤ 100000) (hy1 : 1 ≤ years) (hy2 : years ≤ 50)
    (i : ℕ) (r1 r2 : YearRecord)
    (h1 : (calculateCarbonSequestration (treeSpecies s) n years).results[i]? = some r1)
    (h2 : (calculateCarbonSequestration (treeSpecies s) n years).results[i + 1]? = some r2) :
    r1.total_co2 ≤ r2.total_co2 := by
  have hlen : (calculateCarbonSequestration (treeSpecies s) n years).results.length
      = years := by
    rw [results_eq]; simp
  have hi1 : i + 1 < years := by
    by_contra hc
    rw [List.getElem?_eq_none (by rw [hlen]; omega)] at h2
    exact Option.noConfusion h2
  rw [results_getElem? _ _ _ _ (by omega)] at h1
  rw [results_getElem? _ _ _ _ hi1] at h2
  obtain rfl : r1 = yearRecordAt (treeSpecies s) n (i + 1) := (Option.some_inj.mp h1).symm
  obtain rfl : r2 = yearRecordAt (treeSpecies s) n (i + 1 + 1) := (Option.some_inj.mp h2).symm
  exact round1_mono (simulateYears_fst_mono s n (Nat.le_succ (i + 1)))

/-- Witness for C4 at (pine, 1000 trees, 3 years, records 0 and 1). -/
theorem claim_C4_witness :
    (1 ≤ 1000 ∧ 1000 ≤ 100000 ∧ 1 ≤ 3 ∧ 3 ≤ 50 ∧
     (calculateCarbonSequestration (treeSpecies Species.pine) 1000 3).results[0]?
       = some (yearRecordAt (treeSpecies Species.pine) 1000 1) ∧
     (calculateCarbonSequestration (treeSpecies Species.pine) 1000 3).results[0 + 1]?
       = some (yearRecordAt (treeSpecies Species.pine) 1000 2)) ∧
    (yearRecordAt (treeSpecies Species.pine) 1000 1).total_co2
      ≤ (yearRecordAt (treeSpecies Species.pine) 1000 2).total_co2 :=
  ⟨⟨by norm_num, by norm_num, by norm_num, by norm_num,
    results_getElem? _ _ _ _ (by norm_num), results_getElem? _ _ _ _ (by norm_num)⟩,
   claim_C4 Species.pine 1000 3 (by norm_num) (by norm_num) (by norm_num) (by norm_num)
     0 _ _ (results_getElem? _ _ _ _ (by norm_num)) (results_getElem? _ _ _ _ (by norm_num))⟩

/-- **C5.** For every table species, `calculateBiomass` is non-decreasing
over ages `1..50` and never exceeds `maxBiomass * woodDensity`; consequently
every record's `biomass_per_tree` (the one-decimal rounding of it) lies in
`[0, maxBiomass * woodDensity]`. -/
theorem claim_C5 (s : Species) :
    (∀ a : ℕ, 1 ≤ a → a ≤ 49 →
      calculateBiomass a (treeSpecies s) ≤ calculateBiomass (a + 1) (treeSpecies s)) ∧
    (∀ a : ℕ, 1 ≤ a → a ≤ 50 →
      calculateBiomass a (treeSpecies s)
        ≤ (treeSpecies s).maxBiomass * (treeSpecies s).woodDensity) ∧
    (∀ n years : ℕ, 1 ≤ n → n ≤ 100000 → 1 ≤ years → years ≤ 50 →
      ∀ r ∈ (calculateCarbonSequestration (treeSpecies s) n years).results,
        0 ≤ r.biomass_per_tree ∧
        r.biomass_per_tree ≤ (treeSpecies s).maxBiomass * (treeSpecies s).woodDensity) := by
  obtain ⟨hK, hr, hd, _⟩ := species_facts s
  refine ⟨fun a _ _ => calculateBiomass_mono _ hK hr hd (Nat.le_succ a),
    fun a _ _ => calculateBiomass_le a _ (by linarith) hd, ?_⟩
  intro n years _ _ _ _ r hm
  rw [results_eq] at hm
  obtain ⟨i, _, rfl⟩ := List.mem_map.mp hm
  obtain ⟨m, hmint⟩ := species_bound_int s
  refine ⟨round1_nonneg (calculateBiomass_nonneg _ _),
    round1_le m hmint (calculateBiomass_le _ _ (by linarith) hd)⟩

/-- Witness for C5 at oak: the inner hypotheses hold at age 1, request
(1000 trees, 3 years), and the theorem applies. -/
theorem claim_C5_witness :
    (1 ≤ (1:ℕ) ∧ 1 ≤ 49 ∧ 1 ≤ 50 ∧ 1 ≤ 1000 ∧ 1000 ≤ 100000 ∧ 1 ≤ 3 ∧ 3 ≤ 50) ∧
    calculateBiomass 1 (treeSpecies Species.oak)
      ≤ calculateBiomass (1 + 1) (treeSpecies Species.oak) ∧
    calculateBiomass 1 (treeSpecies Species.oak)
      ≤ (treeSpecies Species.oak).maxBiomass * (treeSpecies Species.oak).woodDensity ∧
    (∀ r ∈ (calculateCarbonSequestration (treeSpecies Species.oak) 1000 3).results,
        0 ≤ r.biomass_per_tree ∧
        r.biomass_per_tree
          ≤ (treeSpecies Species.oak).maxBiomass * (treeSpecies Species.oak).woodDensity) :=
  ⟨by norm_num,
   (claim_C5 Species.oak).1 1 (by norm_num) (by norm_num),
   (claim_C5 Species.oak).2.1 1 (by norm_num) (by norm_num),
   (claim_C5 Species.oak).2.2 1000 3 (by norm_num) (by norm_num) (by norm_num) (by norm_num)⟩

/-- Rounding the same value independently to one decimal and to an integer
gives figures at most `1/2` apart. -/
lemma round1_sub_jround_le (x : ℝ) : |round1 x - (jround x : ℝ)| ≤ 1 / 2 := by
  unfold round1 jround
  have h1 : (⌊x + 1 / 2⌋ : ℝ) ≤ x + 1 / 2 := Int.floor_le _
  have h2 : x + 1 / 2 < ⌊x + 1 / 2⌋ + 1 := Int.lt_floor_add_one _
  have hlo : 10 * ⌊x + 1 / 2⌋ - 5 ≤ ⌊x * 10 + 1 / 2⌋ := by
    apply Int.le_floor.mpr
    push_cast
    linarith
  have hhi : ⌊x * 10 + 1 / 2⌋ < 10 * ⌊x + 1 / 2⌋ + 6 := by
    apply Int.floor_lt.mpr
    push_cast
    linarith
  have hlo' : (10 * ⌊x + 1 / 2⌋ - 5 : ℝ) ≤ (⌊x * 10 + 1 / 2⌋ : ℝ) := by exact_mod_cast hlo
  have hhi' : (⌊x * 10 + 1 / 2⌋ : ℝ) ≤ (10 * ⌊x + 1 / 2⌋ + 5 : ℝ) := by
    have : ⌊x * 10 + 1 / 2⌋ ≤ 10 * ⌊x + 1 / 2⌋ + 5 := by omega
    exact_mod_cast this
  rw [abs_le]
  constructor <;> [nlinarith; nlinarith]

/-- **C6.** For every valid request: each record's `total_co2` is the exact
unrounded running total through that year rounded to one decimal (the
rounding is never fed back into the running total), `final_co2` is the exact
unrounded total after the last year rounded to the nearest integer, and the
two independently rounded displayed totals differ by at most `0.5`. -/
theorem claim_C6 (s : Species) (n years : ℕ)
    (hn1 : 1 ≤ n) (hn2 : n ≤ 100000) (hy1 : 1 ≤ years) (hy2 : years ≤ 50) :
    (∀ y : ℕ, 1 ≤ y → y ≤ years →
      ((calculateCarbonSequestration (treeSpecies s) n years).results[y - 1]?).map
          YearRecord.total_co2
        = some (round1 (exactCumulative (treeSpecies s) n y))) ∧
    (calculateCarbonSequestration (treeSpecies s) n years).final_co2
      = jround (exactCumulative (treeSpecies s) n years) ∧
    |round1 (exactCumulative (treeSpecies s) n years)
      - (jround (exactCumulative (treeSpecies s) n years) : ℝ)| ≤ 1 / 2 := by
  refine ⟨?_, ?_, round1_sub_jround_le _⟩
  · intro y h1 h2
    rw [results_getElem? _ _ _ _ (by omega)]
    have : y - 1 + 1 = y := Nat.succ_pred_eq_of_pos h1
    rw [this]
    simp [yearRecordAt, simulateYears_fst_eq_exact]
  · show jround (simulateYears (treeSpecies s) n years).1 = _
    rw [simulateYears_fst_eq_exact]

/-- Witness for C6 at (pine, 1000 trees, 3 years), inner year 2. -/
theorem claim_C6_witness :
    (1 ≤ 1000 ∧ 1000 ≤ 100000 ∧ 1 ≤ 3 ∧ 3 ≤ 50 ∧ 1 ≤ 2 ∧ 2 ≤ 3) ∧
    ((calculateCarbonSequestration (treeSpecies Species.pine) 1000 3).results[2 - 1]?).map
        YearRecord.total_co2
      = some (round1 (exactCumulative (treeSpecies Species.pine) 1000 2)) ∧
    (calculateCarbonSequestration (treeSpecies Species.pine) 1000 3).final_co2
      = jround (exactCumulative (treeSpecies Species.pine) 1000 3) ∧
    |round1 (exactCumulative (treeSpecies Species.pine) 1000 3)
      - (jround (exactCumulative (treeSpecies Species.pine) 1000 3) : ℝ)| ≤ 1 / 2 :=
  ⟨by norm_num,
   (claim_C6 Species.pine 1000 3 (by norm_num) (by norm_num) (by norm_num)
       (by norm_num)).1 2 (by norm_num) (by norm_num),
   (claim_C6 Species.pine 1000 3 (by norm_num) (by norm_num) (by norm_num)
       (by norm_num)).2.1,
   (claim_C6 Species.pine 1000 3 (by norm_num) (by norm_num) (by norm_num)
       (by norm_num)).2.2⟩

/-- **C7 (code evaluation).** The validation accepts `treeCount` 1 and
100000 and rejects 100001 with the range message; but `treeCount = 0` is
falsy in JS, so the `!numTrees` check fires first and the user sees the
missing-field message, not the range message the claim states. -/
theorem claim_C7_code_eval :
    calculateImpact "pine" (some 0) (some 10)
      = CalcOutcome.error "Please fill in all fields" ∧
    calculateImpact "pine" (some 1) (some 10)
      = CalcOutcome.ok (calculateCarbonSequestration pineProfile 1 10) ∧
    calculateImpact "pine" (some 100000) (some 10)
      = CalcOutcome.ok (calculateCarbonSequestration pineProfile 100000 10) ∧
    calculateImpact "pine" (some 100001) (some 10)
      = CalcOutcome.error "Number of trees must be between 1 and 100,000" := by
  refine ⟨?_, ?_, ?_, ?_⟩ <;> simp [calculateImpact, jsFalsyNum, findSpecies]

/-- **C8 (counterexample).** For the unknown species "baobab" with in-range
inputs, the outcome is the generic catch-all failure message produced by the
`try`/`catch` around the computation — there is no dedicated
`UnknownSpecies` error anywhere in the code. -/
theorem claim_C8_counterexample :
    calculateImpact "baobab" (some 1000) (some 10)
      = CalcOutcome.error "Failed to calculate impact. Please try again." := by
  simp [calculateImpact, jsFalsyNum, findSpecies]

/-- **C8 (amended).** For any non-empty species identifier not in the
supported set and any in-range tree count and duration, the request fails
with the generic failure message ("Failed to calculate impact. Please try
again.") and no result is produced; the failure is not a dedicated
unknown-species error. -/
theorem claim_C8_amended (name : String) (hu : findSpecies name = none)
    (hne : name ≠ "") (n y : ℤ) (hn1 : 1 ≤ n) (hn2 : n ≤ 100000)
    (hy1 : 1 ≤ y) (hy2 : y ≤ 50) :
    calculateImpact name (some n) (some y)
      = CalcOutcome.error "Failed to calculate impact. Please try again." := by
  unfold calculateImpact jsFalsyNum
  rw [if_neg (by simp [hne]; omega)]
  simp only [Option.getD_some]
  rw [if_neg (by omega), if_neg (by omega), hu]

/-- Witness for the amended C8 at ("baobab", 1000 trees, 10 years). -/
theorem claim_C8_amended_witness :
    (findSpecies "baobab" = none ∧ "baobab" ≠ "" ∧ (1:ℤ) ≤ 1000 ∧
     (1000:ℤ) ≤ 100000 ∧ (1:ℤ) ≤ 10 ∧ (10:ℤ) ≤ 50) ∧
    calculateImpact "baobab" (some 1000) (some 10)
      = CalcOutcome.error "Failed to calculate impact. Please try again." :=
  ⟨⟨rfl, by decide, by decide, by decide, by decide, by decide⟩,
   claim_C8_amended "baobab" rfl (by decide) 1000 10
     (by decide) (by decide) (by decide) (by decide)⟩

/-! ### The pine year-1 scenario (C9) -/

/-- When the parameters are in range, the clamp and the floor of
`calculateBiomass` are inactive and the value is the bare logistic formula
times the density. -/
lemma calculateBiomass_noclamp (sd : SpeciesProfile) (age : ℕ)
    (hK : 0.1 ≤ sd.maxBiomass) (hd : 0 ≤ sd.woodDensity) :
    calculateBiomass age sd
      = sd.maxBiomass
          / (1 + (sd.maxBiomass - 0.1) / 0.1 * Real.exp (-sd.growthRate * age))
          * sd.woodDensity := by
  have hepos := Real.exp_pos (-sd.growthRate * age)
  have hA : 0 ≤ (sd.maxBiomass - 0.1) / 0.1 := div_nonneg (by linarith) (by norm_num)
  have hD : (1:ℝ)
      ≤ 1 + (sd.maxBiomass - 0.1) / 0.1 * Real.exp (-sd.growthRate * age) := by
    nlinarith
  have hraw : sd.maxBiomass
      / (1 + (sd.maxBiomass - 0.1) / 0.1 * Real.exp (-sd.growthRate * age))
      ≤ sd.maxBiomass := div_le_self (by linarith) hD
  have hpos : (0:ℝ) ≤ sd.maxBiomass
      / (1 + (sd.maxBiomass - 0.1) / 0.1 * Real.exp (-sd.growthRate * age))
      * sd.woodDensity := by
    have hDpos : (0:ℝ)
        < 1 + (sd.maxBiomass - 0.1) / 0.1 * Real.exp (-sd.growthRate * age) := by
      linarith
    have : (0:ℝ) ≤ sd.maxBiomass := by linarith
    positivity
  simp only [calculateBiomass]
  rw [min_eq_left hraw, max_eq_left hpos]

/-- Rounding key for the pine scenario: for any `e` in the range that
contains `exp(-0.30)`, the displayed value `600/(1+5999e)*0.45` rounds to
one tenth. -/
lemma pine_round_key (e : ℝ) (h1 : 0.7 ≤ e) (h2 : e ≤ 1 / 1.3) :
    (⌊600 / (1 + 5999 * e) * 0.45 * 10 + 1 / 2⌋ : ℤ) = 1 := by
  have hDpos : (0:ℝ) < 1 + 5999 * e := by nlinarith
  have hx : 600 / (1 + 5999 * e) * 0.45 * 10 = 2700 / (1 + 5999 * e) := by
    ring
  have hlow : (1:ℝ) / 2 ≤ 2700 / (1 + 5999 * e) := by
    rw [le_div_iff₀ hDpos]
    nlinarith
  have hhigh : 2700 / (1 + 5999 * e) < 3 / 2 := by
    rw [div_lt_iff₀ hDpos]
    nlinarith
  rw [hx, Int.floor_eq_iff]
  constructor
  · push_cast
    linarith
  · push_cast
    linarith

/-- For pine at age 1 the clamp and the floor are inactive, so the biomass
is the bare formula `600 / (1 + 5999 * exp(-0.30)) * 0.45`. -/
lemma pine_year1_formula :
    calculateBiomass 1 (treeSpecies Species.pine)
      = 600 / (1 + 5999 * Real.exp (-0.30)) * 0.45 := by
  rw [calculateBiomass_noclamp (treeSpecies Species.pine) 1
    (by norm_num [treeSpecies, pineProfile]) (by norm_num [treeSpecies, pineProfile])]
  simp only [treeSpecies, pineProfile]
  norm_num

/-- The pine year-1 biomass rounds to 0.1 kg at one decimal (its exact value
lies between 0.058 and 0.065 kg). -/
lemma pine_year1_round1 :
    round1 (calculateBiomass 1 (treeSpecies Species.pine)) = 0.1 := by
  have h1 : (0.7:ℝ) ≤ Real.exp (-0.30) := by
    linarith [Real.add_one_le_exp (-0.30:ℝ)]
  have h2 : Real.exp (-0.30) ≤ 1 / 1.3 := by
    have h13 : (1.3:ℝ) ≤ Real.exp 0.30 := by linarith [Real.add_one_le_exp (0.30:ℝ)]
    rw [Real.exp_neg, inv_eq_one_div]
    exact one_div_le_one_div_of_le (by norm_num) h13
  unfold round1 jround
  rw [pine_year1_formula, pine_round_key (Real.exp (-0.30)) h1 h2]
  norm_num

/-- **C9 (counterexample).** In the concrete scenario (pine, 1000 trees,
3 years) the year-1 record's biomass-per-tree is 0.1 kg at the specified
one-decimal rounding — not approximately 1.2 kg as the claim states. -/
theorem claim_C9_counterexample :
    ((calculateCarbonSequestration (treeSpecies Species.pine) 1000 3).results[0]?).map
        YearRecord.biomass_per_tree = some 0.1 ∧ (0.1 : ℝ) ≠ 1.2 := by
  constructor
  · rw [results_getElem? _ _ _ _ (by norm_num)]
    show some (round1 (calculateBiomass 1 (treeSpecies Species.pine))) = _
    rw [pine_year1_round1]
  · norm_num

/-- **C9 (amended).** For pine (maxBiomassKg=600, growthRate=0.30,
woodDensity=0.45), the year-1 biomass-per-tree equals
`600 / (1 + 5999 * e^(-0.30)) * 0.45`, which is approximately 0.1 kg at the
specified one-decimal rounding (and so the year-1 record under
treeCount=1000, durationYears=3 displays 0.1). -/
theorem claim_C9_amended :
    calculateBiomass 1 (treeSpecies Species.pine)
      = 600 / (1 + 5999 * Real.exp (-0.30)) * 0.45 ∧
    round1 (calculateBiomass 1 (treeSpecies Species.pine)) = 0.1 ∧
    ((calculateCarbonSequestration (treeSpecies Species.pine) 1000 3).results[0]?).map
        YearRecord.biomass_per_tree
      = some (round1 (calculateBiomass 1 (treeSpecies Species.pine))) := by
  refine ⟨pine_year1_formula, pine_year1_round1, ?_⟩
  rw [results_getElem? _ _ _ _ (by norm_num)]
  rfl

end Afforestation
